import Mathlib

/-!
Verification of the server-supervision core of the openweb-ui-desktop
repository (shallow embedding of the lifecycle, port-probing, output-log
and process-termination code in the main-process utility module, plus the
start/stop handlers of the main entry point).

The embedding makes the operating-system environment explicit:

* `World` holds the fixed behaviour of the environment: the outcome of a
  TCP probe for each host/port, whether the Python runtime and the
  open-webui package are installed, the pid assigned by the n-th `spawn`
  call, whether a `taskkill` invocation exits successfully, and whether a
  given kill command actually makes its target process die.
* `Os` is the mutable operating-system state threaded through the
  functions: which pids are alive, the ordered trace of issued commands,
  and how many `spawn` calls have happened.
* `ServerState` models the two module-level registries `serverPIDs`
  (a `Set<number>`, here a duplicate-free list) and `serverLogs`
  (a `Map<number, string[]>`, here an association list).

Every function below is translated from the TypeScript source; file-system
and logging side effects with no bearing on the modelled state are elided.
-/

/-- Platform discriminator: the source checks `process.platform === "win32"`. -/
inductive Platform
  | win32
  | darwin
  | linux
deriving DecidableEq

/-- Signals used by `terminateUnix`: `"SIGTERM"` and `"SIGKILL"`. -/
inductive Sig
  | sigterm
  | sigkill
deriving DecidableEq

/-- Operating-system commands issued by the termination code.
`taskkill pid force` stands for `taskkill /PID pid /T` (with `/F` when
`force` is true; the `/T` tree flag is always present in the source).
`signalGroup` is `process.kill(-pid, sig)`, `signalProc` is
`process.kill(pid, sig)`, `signalZero` is the `process.kill(pid, 0)`
liveness probe, and `sleep ms` records a `sleep(ms)` pause. -/
inductive OsCmd
  | taskkill (pid : Nat) (force : Bool)
  | signalGroup (pid : Nat) (s : Sig)
  | signalProc (pid : Nat) (s : Sig)
  | signalZero (pid : Nat)
  | sleep (ms : Nat)
deriving DecidableEq

/-- Outcome of the TCP connection attempt made by `portInUse`:
the `connect`, `timeout` and `error` callbacks of the probe socket
(`errorRefused` is the `ECONNREFUSED` case, `errorOther` any other
connection error). -/
inductive ProbeOutcome
  | connected
  | timedOut
  | errorRefused
  | errorOther
deriving DecidableEq

/-- Fixed behaviour of the environment the program runs in. -/
structure World where
  probe : String → Nat → ProbeOutcome
  pythonInstalled : Bool
  packageInstalled : Bool
  spawnPid : Nat → Option Nat
  execOk : Nat → Bool → Bool
  dies : OsCmd → Bool

/-- Mutable operating-system state: process liveness, the trace of issued
commands, and the number of `spawn` calls made so far. -/
structure Os where
  alive : Nat → Bool
  trace : List OsCmd
  spawnCount : Nat

/-- Record a command in the trace without any liveness effect. -/
def Os.issue (os : Os) (c : OsCmd) : Os :=
  { os with trace := os.trace ++ [c] }

/-- Which pid a command is aimed at, if any. -/
def cmdTarget : OsCmd → Option Nat
  | OsCmd.taskkill pid _ => some pid
  | OsCmd.signalGroup pid _ => some pid
  | OsCmd.signalProc pid _ => some pid
  | _ => none

/-- Issue a kill-capable command: it is recorded in the trace, and its
target dies exactly when the world says the command is effective. -/
def applyCmd (w : World) (os : Os) (c : OsCmd) : Os :=
  let os1 := os.issue c
  match cmdTarget c with
  | some pid =>
      if w.dies c then
        { os1 with alive := fun q => if q = pid then false else os1.alive q }
      else os1
  | none => os1

/-- `isProcessRunning(pid)`: `process.kill(pid, 0)` succeeds exactly when
the process exists; the probe is recorded in the trace. -/
def isProcessRunning (os : Os) (pid : Nat) : Bool × Os :=
  (os.alive pid, os.issue (OsCmd.signalZero pid))

/-- `portInUse(port, host)`: resolves `true` on the `connect` callback,
`false` on `timeout`, `false` on `ECONNREFUSED`, and `false` on any other
connection error. -/
def portInUse (w : World) (port : Nat) (host : String) : Bool :=
  match w.probe host port with
  | ProbeOutcome.connected => true
  | ProbeOutcome.timedOut => false
  | ProbeOutcome.errorRefused => false
  | ProbeOutcome.errorOther => false

/-- Errors thrown by `startServer` (the four `throw new Error(...)` sites). -/
inductive StartError
  | pythonNotInstalled
  | packageNotInstalled
  | noAvailablePorts
  | noPid
deriving DecidableEq

/-- The port-scan loop of `startServer`:
`while (await portInUse(availablePort, host)) { availablePort++;
if (availablePort > desiredPort + 100) throw "No available ports found"; }`.
`fuel` only bounds the structural recursion; the error exit is decided by
the `availablePort > desiredPort + 100` guard of the source, and the initial
fuel of `100` equals the number of increments that guard permits, so the
fuel-exhaustion branch is unreachable from `findAvailablePort`. -/
def findAvailablePortGo (w : World) (host : String) (desiredPort : Nat)
    (availablePort : Nat) (fuel : Nat) : Except StartError Nat :=
  if portInUse w availablePort host then
    if availablePort + 1 > desiredPort + 100 then
      Except.error StartError.noAvailablePorts
    else
      match fuel with
      | 0 => Except.error StartError.noAvailablePorts
      | f + 1 => findAvailablePortGo w host desiredPort (availablePort + 1) f
  else Except.ok availablePort

/-- Port allocation in `startServer`, starting the scan at `desiredPort`. -/
def findAvailablePort (w : World) (host : String) (desiredPort : Nat) :
    Except StartError Nat :=
  findAvailablePortGo w host desiredPort desiredPort 100

/-- `let desiredPort = port || 8080`: JavaScript `||` takes the right
operand for every falsy left operand, so `null`/`undefined` (here `none`)
and `0` all resolve to `8080`. -/
def resolveDesiredPort : Option Nat → Nat
  | none => 8080
  | some p => if p = 0 then 8080 else p

/-- The module-level registries: `serverPIDs : Set<number>` and
`serverLogs : Map<number, string[]>`. -/
structure ServerState where
  serverPIDs : List Nat
  serverLogs : List (Nat × List String)
deriving DecidableEq

/-- `serverPIDs.add(pid)`: a set add, no duplicate is created. -/
def pidsAdd (l : List Nat) (pid : Nat) : List Nat :=
  if pid ∈ l then l else l ++ [pid]

/-- `serverPIDs.delete(pid)`: removes the (unique) occurrence of `pid`. -/
def pidsDelete : List Nat → Nat → List Nat
  | [], _ => []
  | q :: rest, pid => if q = pid then rest else q :: pidsDelete rest pid

/-- `serverLogs.get(pid)` as an association-list lookup. -/
def logsGet : List (Nat × List String) → Nat → Option (List String)
  | [], _ => none
  | (k, v) :: rest, pid => if k = pid then some v else logsGet rest pid

/-- `serverLogs.set(pid, lines)`: replace the entry or append a new one. -/
def logsSet : List (Nat × List String) → Nat → List String →
    List (Nat × List String)
  | [], pid, v => [(pid, v)]
  | (k, u) :: rest, pid, v =>
      if k = pid then (k, v) :: rest else (k, u) :: logsSet rest pid v

/-- `serverLogs.delete(pid)`. -/
def logsDelete : List (Nat × List String) → Nat → List (Nat × List String)
  | [], _ => []
  | (k, v) :: rest, pid =>
      if k = pid then logsDelete rest pid else (k, v) :: logsDelete rest pid

/-- Append a line to the log array of `pid`; when the registry holds no
entry for `pid` the push lands in an array the registry no longer
references, so the registry is unchanged. -/
def logsAppend : List (Nat × List String) → Nat → String →
    List (Nat × List String)
  | [], _, _ => []
  | (k, v) :: rest, pid, line =>
      if k = pid then (k, v ++ [line]) :: rest
      else (k, v) :: logsAppend rest pid line

/-- `getServerLog(pid)`: `serverLogs.get(pid) || []`. -/
def getServerLog (st : ServerState) (pid : Nat) : List String :=
  (logsGet st.serverLogs pid).getD []

/-- The `close` callback registered by `startServer`: append the final
`[process][PID:n] Exited with code c signal s` line and remove the pid
from `serverPIDs` (the log entry itself is kept). -/
def serverCloseEvent (st : ServerState) (pid : Nat) (code sig : String) :
    ServerState :=
  { serverPIDs := pidsDelete st.serverPIDs pid,
    serverLogs := logsAppend st.serverLogs pid
      ("[process][PID:" ++ toString pid ++ "] Exited with code " ++ code ++
        " signal " ++ sig) }

/-- `terminateWindows`: one `execSync(taskkill ...)` with the 5-second
timeout; on success a `sleep(500)` pause follows, a thrown error is caught
and only logged. -/
def runTaskkill (w : World) (os : Os) (pid : Nat) (force : Bool) : Os :=
  let os1 := applyCmd w os (OsCmd.taskkill pid force)
  if w.execOk pid force then os1.issue (OsCmd.sleep 500) else os1

/-- The command list of `terminateWindows`:
`forceKill ? [taskkill /T /F] : [taskkill /T, taskkill /T /F]`. -/
def winKillCmds (pid : Nat) (forceKill : Bool) : List (Nat × Bool) :=
  if forceKill then [(pid, true)] else [(pid, false), (pid, true)]

/-- `terminateWindows(pid, forceKill)`: run every command of the list in
order, each followed by a brief pause when it succeeds. -/
def terminateWindows (w : World) (os : Os) (pid : Nat) (forceKill : Bool) :
    Os :=
  (winKillCmds pid forceKill).foldl (fun os c => runTaskkill w os c.1 c.2) os

/-- The signal list of `terminateUnix`:
`forceKill ? ["SIGKILL"] : ["SIGTERM", "SIGKILL"]`. -/
def unixSignals (forceKill : Bool) : List Sig :=
  if forceKill then [Sig.sigkill] else [Sig.sigterm, Sig.sigkill]

/-- One iteration of the `terminateUnix` signal loop: signal the process
group (`process.kill(-pid, sig)`, which raises `ESRCH` when the process is
gone — the `catch` then ends the iteration), pause, and if the process is
still alive signal it individually and pause again. -/
def unixSignalStep (w : World) (os : Os) (pid : Nat) (s : Sig) : Os :=
  if os.alive pid then
    let os1 := applyCmd w os (OsCmd.signalGroup pid s)
    let os2 := os1.issue (OsCmd.sleep 500)
    let pr := isProcessRunning os2 pid
    if pr.1 then
      let os3 := applyCmd w pr.2 (OsCmd.signalProc pid s)
      os3.issue (OsCmd.sleep 500)
    else pr.2
  else os.issue (OsCmd.signalGroup pid s)

/-- `terminateUnix(pid, forceKill)`. -/
def terminateUnix (w : World) (os : Os) (pid : Nat) (forceKill : Bool) : Os :=
  (unixSignals forceKill).foldl (fun os s => unixSignalStep w os pid s) os

/-- One attempt body of `terminateProcessTree`: platform dispatch. -/
def terminateAttempt (w : World) (plat : Platform) (os : Os) (pid : Nat)
    (forceKill : Bool) : Os :=
  match plat with
  | Platform.win32 => terminateWindows w os pid forceKill
  | _ => terminateUnix w os pid forceKill

/-- The retry loop of `terminateProcessTree`, structurally recursive on
the number of remaining attempts. After each attempt the liveness of the
pid is verified; when the process is gone the function returns success at
once, otherwise it sleeps 1000 ms (except after the last attempt) and
retries. The result records success and the number of attempts used. -/
def terminateTreeGo (w : World) (plat : Platform) (pid : Nat)
    (forceKill : Bool) : Nat → Nat → Os → (Bool × Nat) × Os
  | 0, attemptsDone, os => ((false, attemptsDone), os)
  | remaining + 1, attemptsDone, os =>
      let os1 := terminateAttempt w plat os pid forceKill
      let pr := isProcessRunning os1 pid
      if pr.1 then
        let os2 := if 0 < remaining then Os.issue pr.2 (OsCmd.sleep 1000)
          else pr.2
        terminateTreeGo w plat pid forceKill remaining (attemptsDone + 1) os2
      else ((true, attemptsDone + 1), pr.2)

/-- `terminateProcessTree(pid, forceKill)` with `maxRetries = 3`. -/
def terminateProcessTree (w : World) (plat : Platform) (os : Os) (pid : Nat)
    (forceKill : Bool) : (Bool × Nat) × Os :=
  terminateTreeGo w plat pid forceKill 3 0 os

/-- One pass of `stopAllServers`: `for (const pid of pidsToStop) await
terminateProcessTree(pid, forceKill)`. -/
def killPass (w : World) (plat : Platform) (forceKill : Bool) :
    List Nat → Os → Os
  | [], os => os
  | pid :: rest, os =>
      killPass w plat forceKill rest (terminateProcessTree w plat os pid forceKill).2

/-- The final verification-and-cleanup loop of `stopAllServers`: for each
snapshot pid, if it is no longer running delete it from `serverPIDs` and
delete its log from `serverLogs`; otherwise only warn. -/
def verifyAndClean : List Nat → Os → ServerState → Os × ServerState
  | [], os, st => (os, st)
  | pid :: rest, os, st =>
      let pr := isProcessRunning os pid
      if pr.1 then verifyAndClean rest pr.2 st
      else
        verifyAndClean rest pr.2
          { serverPIDs := pidsDelete st.serverPIDs pid,
            serverLogs := logsDelete st.serverLogs pid }

/-- `stopAllServers()`: snapshot `serverPIDs`; return at once when empty;
graceful pass, 2000 ms settle, forceful pass, then verification/cleanup. -/
def stopAllServers (w : World) (plat : Platform) (os : Os)
    (st : ServerState) : Os × ServerState :=
  let pidsToStop := st.serverPIDs
  if pidsToStop.length = 0 then (os, st)
  else
    let os1 := killPass w plat false pidsToStop os
    let os2 := os1.issue (OsCmd.sleep 2000)
    let os3 := killPass w plat true pidsToStop os2
    verifyAndClean pidsToStop os3 st

/-- The part of `startServer` after the initial `await stopAllServers()`
line: resolve the host, verify the runtime and package preconditions,
allocate a port, spawn the subprocess, register its pid and empty log,
and compute the returned URL (an all-interfaces bind address is rewritten
to loopback when not exposing). -/
def startServerAfterStop (w : World) (os : Os) (st : ServerState)
    (expose : Bool) (port : Option Nat) :
    Except StartError (String × Nat) × Os × ServerState :=
  let host := if expose then "0.0.0.0" else "127.0.0.1"
  if w.pythonInstalled = false then
    (Except.error StartError.pythonNotInstalled, os, st)
  else if w.packageInstalled = false then
    (Except.error StartError.packageNotInstalled, os, st)
  else
    let desiredPort := resolveDesiredPort port
    match findAvailablePort w host desiredPort with
    | Except.error e => (Except.error e, os, st)
    | Except.ok availablePort =>
      let spawned := w.spawnPid os.spawnCount
      let os1 := { os with spawnCount := os.spawnCount + 1 }
      match spawned with
      | none => (Except.error StartError.noPid, os1, st)
      | some pid =>
        if pid = 0 then (Except.error StartError.noPid, os1, st)
        else
          let os2 := { os1 with
            alive := fun q => if q = pid then true else os1.alive q }
          let st1 : ServerState :=
            { serverPIDs := pidsAdd st.serverPIDs pid,
              serverLogs := logsSet st.serverLogs pid [] }
          let effectiveHost :=
            if expose = false ∧ host = "0.0.0.0" then "127.0.0.1" else host
          let url := "http://" ++ effectiveHost ++ ":" ++
            toString availablePort
          (Except.ok (url, pid), os2, st1)

/-- `startServer(expose, port)`: stop any existing servers, then launch. -/
def startServer (w : World) (plat : Platform) (os : Os) (st : ServerState)
    (expose : Bool) (port : Option Nat) :
    Except StartError (String × Nat) × Os × ServerState :=
  let s0 := stopAllServers w plat os st
  startServerAfterStop w s0.1 s0.2 expose port

/-- The orchestrator globals of the main entry point: `SERVER_STATUS`,
`SERVER_URL`, `SERVER_PID`, `SERVER_REACHABLE`. -/
structure MainState where
  serverStatus : Option String
  serverUrl : Option String
  serverPid : Option Nat
  serverReachable : Bool
deriving DecidableEq

/-- JavaScript truthiness of a nullable string. -/
def jsTruthy : Option String → Bool
  | none => false
  | some s => !(s == "")

/-- Result of a handler call: the returned boolean plus the updated
operating-system, registry and orchestrator state. -/
structure Handled where
  ok : Bool
  os : Os
  st : ServerState
  main : MainState

/-- `stopServerHandler`: stop all servers, set the status to `"stopped"`
when one was recorded, clear reachability and the URL. -/
def stopServerHandler (w : World) (plat : Platform) (os : Os)
    (st : ServerState) (main : MainState) : Handled :=
  let s := stopAllServers w plat os st
  let status := if jsTruthy main.serverStatus then some "stopped"
    else main.serverStatus
  let main1 := { main with
    serverStatus := status
    serverReachable := false
    serverUrl := none }
  { ok := true, os := s.1, st := s.2, main := main1 }

/-- The persisted configuration consumed by `startServerHandler`:
`CONFIG?.serveOnLocalNetwork ?? false` and `CONFIG?.port ?? null`. -/
structure Config where
  serveOnLocalNetwork : Option Bool
  port : Option Nat
deriving DecidableEq

/-- `startServerHandler`: stop, set status `"starting"`, call
`startServer`; on success record the URL, pid and status `"started"` and
return `true`; on any thrown error set status `"failed"` and return
`false`. -/
def startServerHandler (w : World) (plat : Platform) (os : Os)
    (st : ServerState) (main : MainState) (config : Config) : Handled :=
  let h0 := stopServerHandler w plat os st main
  let main1 := { h0.main with serverStatus := some "starting" }
  let r := startServer w plat h0.os h0.st
    (config.serveOnLocalNetwork.getD false) config.port
  match r.1 with
  | Except.ok res =>
      let main2 := { main1 with
        serverUrl := some res.1
        serverPid := some res.2
        serverStatus := some "started" }
      { ok := true, os := r.2.1, st := r.2.2, main := main2 }
  | Except.error _ =>
      let main2 := { main1 with serverStatus := some "failed" }
      { ok := false, os := r.2.1, st := r.2.2, main := main2 }

/-! ### Concrete environments and states used by witnesses -/

/-- A benign environment: all ports free, runtime and package installed,
the n-th spawn yields pid n+1, every command succeeds and kills its
target. -/
def wKillAll : World where
  probe := fun _ _ => ProbeOutcome.timedOut
  pythonInstalled := true
  packageInstalled := true
  spawnPid := fun n => some (n + 1)
  execOk := fun _ _ => true
  dies := fun _ => true

/-- Like `wKillAll` but no termination command ever kills its target. -/
def wNoKill : World := { wKillAll with dies := fun _ => false }

/-- Like `wKillAll` but the Python runtime is not installed. -/
def wNoPython : World := { wKillAll with pythonInstalled := false }

/-- Like `wKillAll` but ports 9000 to 9002 are occupied. -/
def wBusyLow : World := { wKillAll with
  probe := fun _ port =>
    if port ≤ 9002 then ProbeOutcome.connected else ProbeOutcome.timedOut }

/-- Like `wKillAll` but every port is occupied. -/
def wConnected : World :=
  { wKillAll with probe := fun _ _ => ProbeOutcome.connected }

/-- An operating-system state with no live process. -/
def osNone : Os where
  alive := fun _ => false
  trace := []
  spawnCount := 0

/-- An operating-system state where only pid 1 is alive. -/
def osAlive1 : Os := { osNone with alive := fun q => q == 1 }

/-- An operating-system state where only pid 7 is alive. -/
def osAlive7 : Os := { osNone with alive := fun q => q == 7 }

/-- Empty registries. -/
def stEmpty : ServerState where
  serverPIDs := []
  serverLogs := []

/-- Registry state with pid 1 active and logged, plus a retained log of an
already-exited pid 5. -/
def stOneLive : ServerState where
  serverPIDs := [1]
  serverLogs := [(1, ["[stdout][PID:1]: boot"]), (5, ["[stdout][PID:5]: old"])]

/-- Orchestrator state before any lifecycle operation. -/
def mIdle : MainState where
  serverStatus := none
  serverUrl := none
  serverPid := none
  serverReachable := false

/-- An empty persisted configuration. -/
def cDefault : Config where
  serveOnLocalNetwork := none
  port := none

/-! ### Basic preservation lemmas about the operating-system state -/

theorem issue_alive (os : Os) (c : OsCmd) : (os.issue c).alive = os.alive :=
  rfl

theorem applyCmd_alive_of_dead (w : World) (os : Os) (c : OsCmd) (q : Nat)
    (h : os.alive q = false) : (applyCmd w os c).alive q = false := by
  unfold applyCmd
  cases hc : cmdTarget c
  · simpa [Os.issue] using h
  · by_cases hd : w.dies c <;> simp [hd, Os.issue]
    · by_cases hq : q = (cmdTarget c).getD 0
      · simp_all
      · simp_all
    · exact h

theorem applyCmd_trace (w : World) (os : Os) (c : OsCmd) :
    (applyCmd w os c).trace = os.trace ++ [c] := by
  unfold applyCmd
  cases hc : cmdTarget c
  · rfl
  · by_cases hd : w.dies c <;> simp [hd, Os.issue]

theorem isProcessRunning_fst (os : Os) (pid : Nat) :
    (isProcessRunning os pid).1 = os.alive pid := rfl

theorem isProcessRunning_alive (os : Os) (pid : Nat) :
    (isProcessRunning os pid).2.alive = os.alive := rfl

theorem unixSignalStep_alive_of_dead (w : World) (os : Os) (pid : Nat)
    (s : Sig) (q : Nat) (h : os.alive q = false) :
    (unixSignalStep w os pid s).alive q = false := by
  unfold unixSignalStep
  by_cases ha : os.alive pid
  · have h1 : (applyCmd w os (OsCmd.signalGroup pid s)).alive q = false :=
      applyCmd_alive_of_dead w os _ q h
    simp only [ha, if_true, isProcessRunning, Os.issue]
    split
    · exact applyCmd_alive_of_dead w _ _ q h1
    · exact h1
  · simpa [ha, Os.issue] using h

theorem unixSignalStep_kills (w : World) (os : Os) (pid : Nat) (s : Sig)
    (hw : ∀ c, w.dies c = true) :
    (unixSignalStep w os pid s).alive pid = false := by
  unfold unixSignalStep
  by_cases ha : os.alive pid
  · have h1 : (applyCmd w os (OsCmd.signalGroup pid s)).alive pid = false := by
      unfold applyCmd cmdTarget
      simp [hw, Os.issue]
    simp only [ha, if_true, isProcessRunning, Os.issue]
    split
    · exact applyCmd_alive_of_dead w _ _ pid h1
    · exact h1
  · simp [ha, Os.issue]

theorem terminateUnix_alive_of_dead (w : World) (os : Os) (pid : Nat)
    (forceKill : Bool) (q : Nat) (h : os.alive q = false) :
    (terminateUnix w os pid forceKill).alive q = false := by
  unfold terminateUnix unixSignals
  cases forceKill <;> simp only [Bool.false_eq_true, if_false, if_true,
    List.foldl_cons, List.foldl_nil]
  · exact unixSignalStep_alive_of_dead w _ pid _ q
      (unixSignalStep_alive_of_dead w os pid _ q h)
  · exact unixSignalStep_alive_of_dead w os pid _ q h

theorem terminateUnix_kills (w : World) (os : Os) (pid : Nat)
    (forceKill : Bool) (hw : ∀ c, w.dies c = true) :
    (terminateUnix w os pid forceKill).alive pid = false := by
  unfold terminateUnix unixSignals
  cases forceKill <;> simp only [Bool.false_eq_true, if_false, if_true,
    List.foldl_cons, List.foldl_nil]
  · exact unixSignalStep_alive_of_dead w _ pid _ pid
      (unixSignalStep_kills w os pid _ hw)
  · exact unixSignalStep_kills w os pid _ hw

theorem runTaskkill_alive_of_dead (w : World) (os : Os) (pid : Nat)
    (force : Bool) (q : Nat) (h : os.alive q = false) :
    (runTaskkill w os pid force).alive q = false := by
  unfold runTaskkill
  have h1 : (applyCmd w os (OsCmd.taskkill pid force)).alive q = false :=
    applyCmd_alive_of_dead w os _ q h
  split
  · exact h1
  · exact h1

theorem runTaskkill_kills (w : World) (os : Os) (pid : Nat) (force : Bool)
    (hw : ∀ c, w.dies c = true) :
    (runTaskkill w os pid force).alive pid = false := by
  unfold runTaskkill
  have h1 : (applyCmd w os (OsCmd.taskkill pid force)).alive pid = false := by
    unfold applyCmd cmdTarget
    simp [hw, Os.issue]
  split
  · exact h1
  · exact h1

theorem terminateWindows_alive_of_dead (w : World) (os : Os) (pid : Nat)
    (forceKill : Bool) (q : Nat) (h : os.alive q = false) :
    (terminateWindows w os pid forceKill).alive q = false := by
  unfold terminateWindows winKillCmds
  cases forceKill <;> simp only [Bool.false_eq_true, if_false, if_true,
    List.foldl_cons, List.foldl_nil]
  · exact runTaskkill_alive_of_dead w _ pid _ q
      (runTaskkill_alive_of_dead w os pid _ q h)
  · exact runTaskkill_alive_of_dead w os pid _ q h

theorem terminateWindows_kills (w : World) (os : Os) (pid : Nat)
    (forceKill : Bool) (hw : ∀ c, w.dies c = true) :
    (terminateWindows w os pid forceKill).alive pid = false := by
  unfold terminateWindows winKillCmds
  cases forceKill <;> simp only [Bool.false_eq_true, if_false, if_true,
    List.foldl_cons, List.foldl_nil]
  · exact runTaskkill_alive_of_dead w _ pid _ pid
      (runTaskkill_kills w os pid _ hw)
  · exact runTaskkill_kills w os pid _ hw

theorem terminateAttempt_alive_of_dead (w : World) (plat : Platform)
    (os : Os) (pid : Nat) (forceKill : Bool) (q : Nat)
    (h : os.alive q = false) :
    (terminateAttempt w plat os pid forceKill).alive q = false := by
  unfold terminateAttempt
  cases plat
  · exact terminateWindows_alive_of_dead w os pid forceKill q h
  · exact terminateUnix_alive_of_dead w os pid forceKill q h
  · exact terminateUnix_alive_of_dead w os pid forceKill q h

theorem terminateAttempt_kills (w : World) (plat : Platform) (os : Os)
    (pid : Nat) (forceKill : Bool) (hw : ∀ c, w.dies c = true) :
    (terminateAttempt w plat os pid forceKill).alive pid = false := by
  unfold terminateAttempt
  cases plat
  · exact terminateWindows_kills w os pid forceKill hw
  · exact terminateUnix_kills w os pid forceKill hw
  · exact terminateUnix_kills w os pid forceKill hw

theorem terminateTreeGo_alive_of_dead (w : World) (plat : Platform)
    (pid : Nat) (forceKill : Bool) (q : Nat) :
    ∀ fuel attemptsDone os, os.alive q = false →
      ((terminateTreeGo w plat pid forceKill fuel attemptsDone os).2).alive q
        = false := by
  intro fuel
  induction fuel with
  | zero => intro attemptsDone os h; exact h
  | succ n ih =>
    intro attemptsDone os h
    unfold terminateTreeGo
    have h1 : (terminateAttempt w plat os pid forceKill).alive q = false :=
      terminateAttempt_alive_of_dead w plat os pid forceKill q h
    simp only [isProcessRunning, Os.issue]
    split
    · split
      · exact ih _ _ h1
      · exact ih _ _ h1
    · exact h1

theorem terminateProcessTree_alive_of_dead (w : World) (plat : Platform)
    (os : Os) (pid : Nat) (forceKill : Bool) (q : Nat)
    (h : os.alive q = false) :
    ((terminateProcessTree w plat os pid forceKill).2).alive q = false :=
  terminateTreeGo_alive_of_dead w plat pid forceKill q 3 0 os h

theorem terminateProcessTree_kills (w : World) (plat : Platform) (os : Os)
    (pid : Nat) (forceKill : Bool) (hw : ∀ c, w.dies c = true) :
    ((terminateProcessTree w plat os pid forceKill).2).alive pid = false := by
  unfold terminateProcessTree terminateTreeGo
  have h1 : (terminateAttempt w plat os pid forceKill).alive pid = false :=
    terminateAttempt_kills w plat os pid forceKill hw
  simp only [isProcessRunning, Os.issue, h1]
  exact h1

theorem killPass_alive_of_dead (w : World) (plat : Platform)
    (forceKill : Bool) (q : Nat) :
    ∀ l os, os.alive q = false →
      (killPass w plat forceKill l os).alive q = false := by
  intro l
  induction l with
  | nil => intro os h; exact h
  | cons pid rest ih =>
    intro os h
    unfold killPass
    exact ih _ (terminateProcessTree_alive_of_dead w plat os pid forceKill q h)

theorem killPass_kills (w : World) (plat : Platform) (forceKill : Bool)
    (hw : ∀ c, w.dies c = true) :
    ∀ l os q, q ∈ l → (killPass w plat forceKill l os).alive q = false := by
  intro l
  induction l with
  | nil => intro os q h; cases h
  | cons pid rest ih =>
    intro os q h
    unfold killPass
    rcases List.mem_cons.mp h with h | h
    · subst h
      exact killPass_alive_of_dead w plat forceKill q rest _
        (terminateProcessTree_kills w plat os q forceKill hw)
    · exact ih _ q h

/-! ### Registry lemmas -/

theorem pidsDelete_mem_of_ne (q p : Nat) :
    ∀ l : List Nat, q ∈ l → q ≠ p → q ∈ pidsDelete l p := by
  intro l
  induction l with
  | nil => intro h; cases h
  | cons a rest ih =>
    intro h hne
    unfold pidsDelete
    rcases List.mem_cons.mp h with h | h
    · subst h
      simp [hne]
    · by_cases hap : a = p
      · simpa [hap] using h
      · simp only [hap, if_false]
        exact List.mem_cons.mpr (Or.inr (ih h hne))

theorem pidsDelete_cons_self (a : Nat) (l : List Nat) :
    pidsDelete (a :: l) a = l := by
  simp [pidsDelete]

theorem foldl_pidsDelete_self :
    ∀ l : List Nat, List.foldl pidsDelete l l = [] := by
  intro l
  induction l with
  | nil => rfl
  | cons a rest ih =>
    have h : List.foldl pidsDelete (a :: rest) (a :: rest)
        = List.foldl pidsDelete rest rest := by
      simp [List.foldl_cons, pidsDelete_cons_self]
    simp [h, ih]

theorem logsGet_logsDelete_of_ne (q p : Nat) (h : q ≠ p) :
    ∀ m : List (Nat × List String), logsGet (logsDelete m p) q = logsGet m q := by
  intro m
  induction m with
  | nil => rfl
  | cons e rest ih =>
    rcases e with ⟨k, v⟩
    by_cases hk : k = p
    · have hpq : ¬(p = q) := fun hq => h (Eq.symm hq)
      simp [logsDelete, logsGet, hk, hpq, ih]
    · simp [logsDelete, logsGet, hk, ih]

/-! ### Lemmas about the verification loop of `stopAllServers` -/

theorem verifyAndClean_alive :
    ∀ (l : List Nat) (os : Os) (st : ServerState),
      ((verifyAndClean l os st).1).alive = os.alive := by
  intro l
  induction l with
  | nil => intro os st; rfl
  | cons pid rest ih =>
    intro os st
    unfold verifyAndClean
    simp only [isProcessRunning, Os.issue]
    split
    · exact ih _ _
    · exact ih _ _

theorem verifyAndClean_pids_of_all_dead :
    ∀ (l : List Nat) (os : Os) (st : ServerState),
      (∀ p ∈ l, os.alive p = false) →
      ((verifyAndClean l os st).2).serverPIDs
        = List.foldl pidsDelete st.serverPIDs l := by
  intro l
  induction l with
  | nil => intro os st _; rfl
  | cons pid rest ih =>
    intro os st hdead
    unfold verifyAndClean
    have hp : os.alive pid = false := hdead pid (List.mem_cons_self pid rest)
    simp only [isProcessRunning, Os.issue, hp, Bool.false_eq_true, if_false,
      List.foldl_cons]
    exact ih _ _ (fun p hp2 => hdead p (List.mem_cons_of_mem _ hp2))

theorem verifyAndClean_logs_frame (q : Nat) :
    ∀ (l : List Nat) (os : Os) (st : ServerState), q ∉ l →
      logsGet ((verifyAndClean l os st).2).serverLogs q
        = logsGet st.serverLogs q := by
  intro l
  induction l with
  | nil => intro os st _; rfl
  | cons pid rest ih =>
    intro os st hq
    have hqp : q ≠ pid := fun h => hq (h ▸ List.mem_cons_self pid rest)
    have hqr : q ∉ rest := fun h => hq (List.mem_cons_of_mem _ h)
    unfold verifyAndClean
    simp only [isProcessRunning, Os.issue]
    split
    · exact ih _ _ hqr
    · rw [ih _ _ hqr]
      exact logsGet_logsDelete_of_ne q pid hqp _

theorem verifyAndClean_removed_dead (q : Nat) :
    ∀ (l : List Nat) (os : Os) (st : ServerState),
      q ∈ st.serverPIDs →
      q ∉ ((verifyAndClean l os st).2).serverPIDs →
      ((verifyAndClean l os st).1).alive q = false := by
  intro l
  induction l with
  | nil =>
    intro os st hin hout
    exact absurd hin hout
  | cons pid rest ih =>
    intro os st hin hout
    unfold verifyAndClean at hout ⊢
    simp only [isProcessRunning, Os.issue] at hout ⊢
    by_cases hr : os.alive pid
    · simp only [hr, if_true] at hout ⊢
      exact ih _ _ hin hout
    · simp only [hr, Bool.false_eq_true, if_false] at hout ⊢
      by_cases hq : q = pid
      · subst hq
        rw [verifyAndClean_alive]
        simpa [Os.issue] using hr
      · exact ih _ _ (pidsDelete_mem_of_ne q pid st.serverPIDs hin hq) hout

/-! ### Lemmas about `stopAllServers` -/

theorem stopAllServers_empty (w : World) (plat : Platform) (os : Os)
    (st : ServerState) (h : st.serverPIDs = []) :
    stopAllServers w plat os st = (os, st) := by
  unfold stopAllServers
  simp [h]

theorem stopAllServers_drains (w : World) (plat : Platform) (os : Os)
    (st : ServerState) (hw : ∀ c, w.dies c = true) :
    ((stopAllServers w plat os st).2).serverPIDs = [] := by
  unfold stopAllServers
  by_cases hlen : st.serverPIDs.length = 0
  · simp [hlen, List.length_eq_zero.mp hlen]
  · simp only [hlen, if_false]
    have hdead : ∀ p ∈ st.serverPIDs,
        (killPass w plat true st.serverPIDs
          ((killPass w plat false st.serverPIDs os).issue
            (OsCmd.sleep 2000))).alive p = false :=
      fun p hp => killPass_kills w plat true hw st.serverPIDs _ p hp
    rw [verifyAndClean_pids_of_all_dead _ _ _ hdead]
    exact foldl_pidsDelete_self st.serverPIDs

theorem stopAllServers_log_frame (w : World) (plat : Platform) (os : Os)
    (st : ServerState) (pid : Nat) (h : pid ∉ st.serverPIDs) :
    logsGet ((stopAllServers w plat os st).2).serverLogs pid
      = logsGet st.serverLogs pid := by
  unfold stopAllServers
  by_cases hlen : st.serverPIDs.length = 0
  · simp [hlen]
  · simp only [hlen, if_false]
    exact verifyAndClean_logs_frame pid st.serverPIDs _ st h

/-! ### Lemmas about the port-scan loop -/

theorem findAvailablePortGo_exhausted (w : World) (host : String) (d : Nat) :
    ∀ (fuel a : Nat), a + fuel = d + 100 →
      (∀ q, a ≤ q → q ≤ d + 100 → portInUse w q host = true) →
      findAvailablePortGo w host d a fuel
        = Except.error StartError.noAvailablePorts := by
  intro fuel
  induction fuel with
  | zero =>
    intro a ha hocc
    have h1 : portInUse w a host = true := hocc a le_rfl (by omega)
    rw [findAvailablePortGo]
    simp [h1]
  | succ f ih =>
    intro a ha hocc
    have h1 : portInUse w a host = true := hocc a le_rfl (by omega)
    have h2 : ¬(a + 1 > d + 100) := by omega
    rw [findAvailablePortGo]
    simp only [h1, if_true, h2, if_false]
    exact ih (a + 1) (by omega) (fun q hq1 hq2 => hocc q (by omega) hq2)

theorem findAvailablePortGo_first_free (w : World) (host : String)
    (d p : Nat) (hfree : portInUse w p host = false) :
    ∀ (fuel a : Nat), a + fuel = d + 100 → a ≤ p → p ≤ d + 100 →
      (∀ q, a ≤ q → q < p → portInUse w q host = true) →
      findAvailablePortGo w host d a fuel = Except.ok p := by
  intro fuel
  induction fuel with
  | zero =>
    intro a ha hap hpd hocc
    have hap2 : a = p := by omega
    subst hap2
    rw [findAvailablePortGo]
    simp [hfree]
  | succ f ih =>
    intro a ha hap hpd hocc
    by_cases hap2 : a = p
    · subst hap2
      rw [findAvailablePortGo]
      simp [hfree]
    · have halt : a < p := lt_of_le_of_ne hap hap2
      have h1 : portInUse w a host = true := hocc a le_rfl halt
      have h2 : ¬(a + 1 > d + 100) := by omega
      rw [findAvailablePortGo]
      simp only [h1, if_true, h2, if_false]
      exact ih (a + 1) (by omega) (by omega) hpd
        (fun q hq1 hq2 => hocc q (by omega) hq2)

/-! ### Shape of a successful `startServer` -/

theorem startServerAfterStop_ok_pids (w : World) (os : Os) (st : ServerState)
    (expose : Bool) (port : Option Nat) (r : String × Nat) (os1 : Os)
    (st1 : ServerState)
    (h : startServerAfterStop w os st expose port = (Except.ok r, os1, st1)) :
    st1.serverPIDs = pidsAdd st.serverPIDs r.2 := by
  unfold startServerAfterStop at h
  dsimp only at h
  repeat' split at h
  all_goals first
  | (simp only [Prod.mk.injEq, Except.ok.injEq] at h
     obtain ⟨h1, -, h3⟩ := h
     subst h1
     subst h3
     simp)
  | simp at h

/-! ### Claim theorems -/

/-- C6: for every port and host, the probe `portInUse` returns `true` if
and only if the TCP connection attempt succeeds; consequently it returns
`false` when the attempt times out and `false` when the connection is
refused or fails with any other error. -/
theorem portInUse_iff_connected (w : World) (port : Nat) (host : String) :
    portInUse w port host = true ↔
      w.probe host port = ProbeOutcome.connected := by
  unfold portInUse
  cases w.probe host port <;> simp

/-- Witness for C6 at a concrete occupied port. -/
theorem portInUse_iff_connected_witness :
    portInUse wConnected 8080 "127.0.0.1" = true :=
  (portInUse_iff_connected wConnected 8080 "127.0.0.1").mpr rfl

/-- C2: if every port in the window from the desired port to the desired
port plus 100 is occupied, the port-allocation loop of `startServer`
fails with the port-exhaustion error; otherwise it returns exactly the
first free port of the window, all ports below it having probed
occupied. -/
theorem findAvailablePort_allocation (w : World) (host : String) (d : Nat) :
    ((∀ q, d ≤ q → q ≤ d + 100 → portInUse w q host = true) →
      findAvailablePort w host d = Except.error StartError.noAvailablePorts)
    ∧ ∀ p, d ≤ p → p ≤ d + 100 → portInUse w p host = false →
        (∀ q, d ≤ q → q < p → portInUse w q host = true) →
        findAvailablePort w host d = Except.ok p := by
  constructor
  · intro hocc
    exact findAvailablePortGo_exhausted w host d 100 d (by omega) hocc
  · intro p hp1 hp2 hfree hocc
    exact findAvailablePortGo_first_free w host d p hfree 100 d (by omega)
      hp1 hp2 hocc

/-- Witness for C2: ports 9000 to 9002 occupied, 9003 free. -/
theorem findAvailablePort_allocation_witness :
    findAvailablePort wBusyLow "127.0.0.1" 9000 = Except.ok 9003 :=
  (findAvailablePort_allocation wBusyLow "127.0.0.1" 9000).2 9003
    (by omega) (by omega) (by decide)
    (by
      intro q h1 h2
      have hq : q ≤ 9002 := by omega
      simp [portInUse, wBusyLow, wKillAll, hq])

/-- C10: `startServer` treats every falsy port argument (`null`,
`undefined`, or `0`) as unspecified and starts the scan at 8080; in
particular, for every expose flag, starting with port `0` behaves exactly
like starting with no port, and both resolve the desired port to 8080. -/
theorem startServer_falsy_port (w : World) (plat : Platform) (os : Os)
    (st : ServerState) (expose : Bool) :
    startServer w plat os st expose (some 0)
        = startServer w plat os st expose none
    ∧ resolveDesiredPort (some 0) = 8080 ∧ resolveDesiredPort none = 8080 :=
  ⟨rfl, rfl, rfl⟩

/-- C7: `terminateProcessTree` on an identity whose liveness probe already
reports it dead returns success with exactly one attempt used — the
post-attempt verification reports the process gone, so the retry loop is
never entered. -/
theorem terminateProcessTree_dead_idempotent (w : World) (plat : Platform)
    (os : Os) (pid : Nat) (forceKill : Bool) (h : os.alive pid = false) :
    (terminateProcessTree w plat os pid forceKill).1 = (true, 1) := by
  unfold terminateProcessTree terminateTreeGo
  have h1 : (terminateAttempt w plat os pid forceKill).alive pid = false :=
    terminateAttempt_alive_of_dead w plat os pid forceKill pid h
  simp [isProcessRunning, Os.issue, h1]

/-- Witness for C7 on a dead pid. -/
theorem terminateProcessTree_dead_idempotent_witness :
    (terminateProcessTree wKillAll Platform.linux osNone 9 false).1
      = (true, 1) :=
  terminateProcessTree_dead_idempotent wKillAll Platform.linux osNone 9
    false rfl

/-- C5 counterexample: in a non-forceful Windows attempt on pid 7, the
cooperative tree-scoped command already kills the process, yet the forced
tree-scoped command is issued all the same — the source runs both
commands of the list unconditionally, with no liveness check between
them. -/
theorem terminateWindows_escalates_on_dead :
    (runTaskkill wKillAll osAlive7 7 false).alive 7 = false ∧
    OsCmd.taskkill 7 true ∈ (terminateWindows wKillAll osAlive7 7 false).trace := by
  decide

/-- C5 (amended): on Windows-family platforms, a non-forceful
`terminateProcessTree` attempt issues the cooperative tree-scoped command
and then always issues the forced tree-scoped command within the same
attempt, regardless of whether the process is still alive, with a brief
pause after each command whose invocation succeeds. -/
theorem terminateWindows_always_escalates (w : World) (os : Os) (pid : Nat) :
    (terminateWindows w os pid false).trace =
      ((if w.execOk pid false = true
          then os.trace ++ [OsCmd.taskkill pid false, OsCmd.sleep 500]
          else os.trace ++ [OsCmd.taskkill pid false])
        ++ if w.execOk pid true = true
          then [OsCmd.taskkill pid true, OsCmd.sleep 500]
          else [OsCmd.taskkill pid true]) := by
  unfold terminateWindows winKillCmds runTaskkill
  by_cases h1 : w.execOk pid false <;> by_cases h2 : w.execOk pid true <;>
    simp [h1, h2, applyCmd_trace, Os.issue]

/-- C1 counterexample: pid 1 is in the ActiveSet with a non-empty log and
its process dies from the termination commands; `stopAllServers` then
deletes its log in the final cleanup, so `getServerLog` returns the empty
sequence afterwards instead of the line it returned before. -/
theorem stopAllServers_deletes_confirmed_dead_log :
    getServerLog stOneLive 1 = ["[stdout][PID:1]: boot"] ∧
    getServerLog (stopAllServers wKillAll Platform.linux osAlive1 stOneLive).2 1
      = [] := by
  constructor
  · rfl
  · rfl

/-- C1 (amended): a normal stop never touches the log of an identity that
is outside the ActiveSet snapshot (in particular the retained log of an
already-exited process survives `stopAllServers` unchanged); only the
logs of snapshot identities that the final liveness verification confirms
dead are deleted by the stop path. -/
theorem stopAllServers_preserves_inactive_logs (w : World) (plat : Platform)
    (os : Os) (st : ServerState) (pid : Nat) (h : pid ∉ st.serverPIDs) :
    getServerLog (stopAllServers w plat os st).2 pid = getServerLog st pid := by
  unfold getServerLog
  rw [stopAllServers_log_frame w plat os st pid h]

/-- Witness for the amended C1: the retained log of exited pid 5 survives
a stop that kills and cleans up pid 1. -/
theorem stopAllServers_preserves_inactive_logs_witness :
    getServerLog (stopAllServers wKillAll Platform.linux osAlive1 stOneLive).2 5
      = getServerLog stOneLive 5 :=
  stopAllServers_preserves_inactive_logs wKillAll Platform.linux osAlive1
    stOneLive 5 (by decide)

/-- C4: during `stopAllServers` an identity is removed from the ActiveSet
only when the final verification pass observes its liveness probe fail
(the process confirmed dead); the graceful and forceful kill passes
themselves never touch the registry, and the only other removal site is
the close callback, which by construction fires only on the process close
event. -/
theorem stopAllServers_removal_confirms_death (w : World) (plat : Platform)
    (os : Os) (st : ServerState) (pid : Nat)
    (h1 : pid ∈ st.serverPIDs)
    (h2 : pid ∉ ((stopAllServers w plat os st).2).serverPIDs) :
    ((stopAllServers w plat os st).1).alive pid = false := by
  unfold stopAllServers at h2 ⊢
  by_cases hlen : st.serverPIDs.length = 0
  · rw [List.length_eq_zero] at hlen
    rw [hlen] at h1
    cases h1
  · simp only [hlen, if_false] at h2 ⊢
    exact verifyAndClean_removed_dead pid st.serverPIDs _ st h1 h2

/-- Witness for C4: pid 1, killed during the stop and removed, is indeed
reported dead by the final operating-system state. -/
theorem stopAllServers_removal_confirms_death_witness :
    ((stopAllServers wKillAll Platform.linux osAlive1 stOneLive).1).alive 1
      = false :=
  stopAllServers_removal_confirms_death wKillAll Platform.linux osAlive1
    stOneLive 1 (by decide) (by decide)

/-- C3 counterexample: when the spawned server process ignores every
termination signal, the implicit stop of the second `start` fails to
drain the ActiveSet — the survivor stays tracked and the second launch
adds a second identity, so two identities remain. -/
theorem startServer_twice_two_pids :
    ((startServer wNoKill Platform.linux
        (startServer wNoKill Platform.linux osNone stEmpty false none).2.1
        (startServer wNoKill Platform.linux osNone stEmpty false none).2.2
        false none).2.2).serverPIDs = [1, 2] ∧
    ((startServer wNoKill Platform.linux
        (startServer wNoKill Platform.linux osNone stEmpty false none).2.1
        (startServer wNoKill Platform.linux osNone stEmpty false none).2.2
        false none).2.2).serverPIDs.length ≠ 1 := by
  decide

/-- C3 (amended): when every termination command actually kills its
target process, calling `start` twice in sequence leaves exactly one
identity in the ActiveSet — the implicit stop of the second call fully drains
the set before the new launch registers its pid. -/
theorem startServer_twice_single_pid (w : World) (plat : Platform)
    (os1 : Os) (st1 : ServerState) (expose1 expose2 : Bool)
    (port1 port2 : Option Nat) (r1 : Except StartError (String × Nat))
    (os2 : Os) (st2 : ServerState) (url : String) (pid : Nat) (os3 : Os)
    (st3 : ServerState)
    (hw : ∀ c, w.dies c = true)
    (_h1 : startServer w plat os1 st1 expose1 port1 = (r1, os2, st2))
    (h2 : startServer w plat os2 st2 expose2 port2
      = (Except.ok (url, pid), os3, st3)) :
    st3.serverPIDs = [pid] := by
  have hdrain : ((stopAllServers w plat os2 st2).2).serverPIDs = [] :=
    stopAllServers_drains w plat os2 st2 hw
  unfold startServer at h2
  have hshape := startServerAfterStop_ok_pids w
    (stopAllServers w plat os2 st2).1 (stopAllServers w plat os2 st2).2
    expose2 port2 (url, pid) os3 st3 h2
  rw [hshape, hdrain]
  simp [pidsAdd]

/-- Witness for the amended C3: two sequential starts in the benign
environment leave exactly the second pid tracked. -/
theorem startServer_twice_single_pid_witness :
    ((startServer wKillAll Platform.linux
        (startServer wKillAll Platform.linux osNone stEmpty false none).2.1
        (startServer wKillAll Platform.linux osNone stEmpty false none).2.2
        false none).2.2).serverPIDs = [2] :=
  startServer_twice_single_pid wKillAll Platform.linux osNone stEmpty
    false false none none _ _ _ "http://127.0.0.1:8080" 2 _ _
    (fun _ => rfl) rfl rfl

/-- C9: for a free desired port p (with the runtime and the package
installed, a successful spawn, and no previously tracked server),
`startServer(expose := false, p)` resolves the host to loopback, returns
the URL `http://127.0.0.1:p` together with the launched pid, and leaves
exactly that identity in the ActiveSet. -/
theorem startServer_free_port_loopback (w : World) (plat : Platform)
    (os : Os) (st : ServerState) (p pid : Nat)
    (hp : p ≠ 0)
    (hfree : portInUse w p "127.0.0.1" = false)
    (hpy : w.pythonInstalled = true)
    (hpkg : w.packageInstalled = true)
    (hspawn : w.spawnPid os.spawnCount = some pid)
    (hpid : pid ≠ 0)
    (hempty : st.serverPIDs = []) :
    (startServer w plat os st false (some p)).1
        = Except.ok ("http://127.0.0.1:" ++ toString p, pid)
    ∧ ((startServer w plat os st false (some p)).2.2).serverPIDs = [pid] := by
  have hstop : stopAllServers w plat os st = (os, st) :=
    stopAllServers_empty w plat os st hempty
  have hfind : findAvailablePort w "127.0.0.1" p = Except.ok p := by
    unfold findAvailablePort
    rw [findAvailablePortGo]
    simp [hfree]
  unfold startServer
  rw [hstop]
  unfold startServerAfterStop
  simp only [hpy, hpkg, resolveDesiredPort, hp, if_false, Bool.true_eq_false,
    Bool.false_eq_true]
  rw [hfind]
  simp [hspawn, hpid, pidsAdd, hempty]

/-- Witness for C9: desired port 8080 free in the benign environment. -/
theorem startServer_free_port_loopback_witness :
    (startServer wKillAll Platform.linux osNone stEmpty false (some 8080)).1
        = Except.ok ("http://127.0.0.1:" ++ toString 8080, 1)
    ∧ ((startServer wKillAll Platform.linux osNone stEmpty false
        (some 8080)).2.2).serverPIDs = [1] :=
  startServer_free_port_loopback wKillAll Platform.linux osNone stEmpty
    8080 1 (by decide) rfl rfl rfl rfl (by decide) rfl

/-- C8: when the runtime is not installed (or the server package is not
installed) and no server is tracked, `startServerHandler` fails before
any subprocess is spawned: it returns failure to the caller, the
registries (ActiveSet and logs) are left exactly as they were, the
operating-system state is untouched (in particular no spawn happened),
and the orchestrator status becomes `"failed"`. -/
theorem startServerHandler_precondition_failure (w : World) (plat : Platform)
    (os : Os) (st : ServerState) (main : MainState) (config : Config)
    (hpre : w.pythonInstalled = false ∨ w.packageInstalled = false)
    (hempty : st.serverPIDs = []) :
    (startServerHandler w plat os st main config).ok = false ∧
    (startServerHandler w plat os st main config).st = st ∧
    (startServerHandler w plat os st main config).os = os ∧
    (startServerHandler w plat os st main config).main.serverStatus
      = some "failed" := by
  have hstop : stopAllServers w plat os st = (os, st) :=
    stopAllServers_empty w plat os st hempty
  unfold startServerHandler stopServerHandler startServer startServerAfterStop
  rw [hstop]
  rcases hpre with hpy | hpk
  · simp [hpy, hstop]
  · by_cases hpy2 : w.pythonInstalled = false
    · simp [hpy2, hstop]
    · simp [hpy2, hpk, hstop]

/-- Witness for C8 with the Python runtime missing. -/
theorem startServerHandler_precondition_failure_witness :
    (startServerHandler wNoPython Platform.linux osNone stEmpty mIdle
        cDefault).ok = false ∧
    (startServerHandler wNoPython Platform.linux osNone stEmpty mIdle
        cDefault).st = stEmpty ∧
    (startServerHandler wNoPython Platform.linux osNone stEmpty mIdle
        cDefault).os = osNone ∧
    (startServerHandler wNoPython Platform.linux osNone stEmpty mIdle
        cDefault).main.serverStatus = some "failed" :=
  startServerHandler_precondition_failure wNoPython Platform.linux osNone
    stEmpty mIdle cDefault (Or.inl rfl) rfl
